import Mathlib

/-!
Shallow embedding of the `terraform-provider-nango` repository.

The embedding models the provider plugin's pure behaviour: the Terraform
attribute model (`integrationModel`), the wire models, JSON marshalling of
the request structs (mirroring `encoding/json` with the struct tags used in
the source, in particular `omitempty` on the pointer fields), the header
manipulation of the authenticated transport (`myTransport.RoundTrip`), and
each lifecycle operation of `integrationResource` and `integrationDataSource`
as a function from the plan/state plus the (already transport-level resolved,
already JSON-decoded-or-failed) HTTP responses to the outcome: the list of
issued requests, the state written back (if any) and the diagnostics added.

`Option String` models a `types.String`: `none` is a null value, `some s` a
known value; `valueString` is `ValueString` (empty string on null) and the
identity on `Option String` is `ValueStringPointer` (nil on null).
HTTP statuses are carried on responses so that theorems can show they are
never inspected. `Except.error` on the outer layer models a transport error
returned by the retryable client; `Except.error` on the `body` field models
a JSON decode failure of the response body, carrying the decoder's message.
-/

/-- `types.String → string` conversion: `ValueString` returns the empty
string for a null value. -/
def valueString : Option String → String
  | none => ""
  | some s => s

/-- The nested `credentials` attribute model (`integrationCredentialModel`
in the source); `scopes` is a `types.List` of strings, `none` models null. -/
structure integrationCredentialModel where
  clientId : Option String
  clientSecret : Option String
  type : Option String
  scopes : Option (List String)
  deriving Repr, DecidableEq

/-- The Terraform attribute model of one integration (`integrationModel`).
`credentials` is a pointer in the source, hence `Option` here; the data
source sets it to `nil`. -/
structure integrationModel where
  uniqueKey : Option String
  displayName : Option String
  nangoProvider : Option String
  updatedAt : Option String
  credentials : Option integrationCredentialModel
  deriving Repr, DecidableEq

/-- Wire model of one integration as returned by the API
(`nangoIntegrationModel`): JSON fields `unique_key`, `display_name`,
`provider`, `updated_at`. -/
structure nangoIntegrationModel where
  uniqueKey : String
  displayName : String
  nangoProvider : String
  updatedAt : String
  deriving Repr, DecidableEq

/-- The list envelope `{data: [...]}` (`nangoIntegrationResponse`). -/
structure nangoIntegrationResponse where
  data : List nangoIntegrationModel
  deriving Repr, DecidableEq

/-- The single-entity envelope `{data: {...}}` (`nanogoIntegrationResponse2`,
name kept from the source). -/
structure nanogoIntegrationResponse2 where
  data : nangoIntegrationModel
  deriving Repr, DecidableEq

/-- The outgoing credentials block (`integrationCredentialsRequestModel`):
`scopes` is already flattened to a comma-delimited string. -/
structure integrationCredentialsRequestModel where
  clientId : String
  clientSecret : String
  type : String
  scopes : String
  deriving Repr, DecidableEq

/-- The outgoing request struct (`integrationRequestModel`).  `uniqueKey`
and `nangoProvider` are `*string` with `omitempty` in the source: `none`
(a nil pointer) is omitted from the marshalled JSON. -/
structure integrationRequestModel where
  uniqueKey : Option String
  displayName : String
  nangoProvider : Option String
  credentials : integrationCredentialsRequestModel
  deriving Repr, DecidableEq

/-- A value of a top-level JSON field in a marshalled request body: either a
string, or the nested credentials object (itself a list of string fields). -/
inductive jsonFieldValue where
  | str : String → jsonFieldValue
  | credentialsObj : List (String × String) → jsonFieldValue
  deriving Repr, DecidableEq

/-- `encoding/json` marshalling of `integrationCredentialsRequestModel`:
all four fields always present, in struct order. -/
def marshalCredentials (c : integrationCredentialsRequestModel) :
    List (String × String) :=
  [("client_id", c.clientId), ("client_secret", c.clientSecret),
   ("type", c.type), ("scopes", c.scopes)]

/-- `encoding/json` marshalling of `integrationRequestModel`: fields in
struct order, the two nil-able pointer fields omitted when nil
(`json:"unique_key,omitempty"`, `json:"provider,omitempty"`). -/
def marshalIntegrationRequest (r : integrationRequestModel) :
    List (String × jsonFieldValue) :=
  (match r.uniqueKey with
   | none => []
   | some k => [("unique_key", jsonFieldValue.str k)]) ++
  [("display_name", jsonFieldValue.str r.displayName)] ++
  (match r.nangoProvider with
   | none => []
   | some p => [("provider", jsonFieldValue.str p)]) ++
  [("credentials", jsonFieldValue.credentialsObj (marshalCredentials r.credentials))]

/-- The keys of a marshalled JSON body, in order. -/
def jsonKeys (body : List (String × jsonFieldValue)) : List String :=
  body.map Prod.fst

/-- `ElementsAs` on the scopes `types.List`: a null list leaves the Go slice
nil (the returned diagnostics are discarded by the source), a known list
yields its elements. -/
def elementsAs (scopes : Option (List String)) : List String :=
  scopes.getD []

/-- The scopes flattening performed in `Create` and `Update`:
`strings.Join(scopes, ",")`. -/
def flattenScopes (scopes : List String) : String :=
  String.intercalate "," scopes

/-- Splits a character list at every comma, keeping empty segments. -/
def splitCommaAux : List Char → List (List Char)
  | [] => [[]]
  | c :: cs =>
    let r := splitCommaAux cs
    if c = ',' then [] :: r
    else
      match r with
      | [] => [[c]]
      | h :: t => (c :: h) :: t

/-- Modelled from the spec: the inverse scope reconstruction (`unflatten`).
No read path in `src` rebuilds the scope list (resource `Read` leaves state
untouched and the data source sets credentials to nil), so this definition
follows the spec's words: comma-joined on the wire, reconstructed as a list
on read, with the empty string mapping back to the empty list. -/
def unflattenScopes (s : String) : List String :=
  if s = "" then [] else (splitCommaAux s.toList).map (fun cs => String.mk cs)

/-- The zero value used when dereferencing a nil `credentials` pointer; the
schema marks `credentials` as required, so the pointer is never nil on the
resource paths and this default is unreachable in practice. -/
def emptyCredentials : integrationCredentialModel :=
  { clientId := none, clientSecret := none, type := none, scopes := none }

/-- The request struct built by `Create` (source lines 112–128): every field
taken from the plan, scopes flattened. -/
def createRequestModel (plan : integrationModel) : integrationRequestModel :=
  let cred := plan.credentials.getD emptyCredentials
  { uniqueKey := plan.uniqueKey
    displayName := valueString plan.displayName
    nangoProvider := plan.nangoProvider
    credentials :=
      { clientId := valueString cred.clientId
        clientSecret := valueString cred.clientSecret
        type := valueString cred.type
        scopes := flattenScopes (elementsAs cred.scopes) } }

/-- The request struct built by `Update` (source lines 243–259): same as
`createRequestModel` except `NangoProvider` is omitted for PATCH requests. -/
def updateRequestModel (plan : integrationModel) : integrationRequestModel :=
  let cred := plan.credentials.getD emptyCredentials
  { uniqueKey := plan.uniqueKey
    displayName := valueString plan.displayName
    nangoProvider := none
    credentials :=
      { clientId := valueString cred.clientId
        clientSecret := valueString cred.clientSecret
        type := valueString cred.type
        scopes := flattenScopes (elementsAs cred.scopes) } }

/-- The marshalled JSON body of the create POST. -/
def createRequestBody (plan : integrationModel) : List (String × jsonFieldValue) :=
  marshalIntegrationRequest (createRequestModel plan)

/-- The marshalled JSON body of the update PATCH. -/
def updateRequestBody (plan : integrationModel) : List (String × jsonFieldValue) :=
  marshalIntegrationRequest (updateRequestModel plan)

/-- HTTP verbs used by the provider. -/
inductive HttpMethod where
  | get
  | post
  | patch
  deriving Repr, DecidableEq

/-- A record of one issued HTTP request: verb, full URL, and the marshalled
JSON body for verbs that carry one. -/
structure HttpRequestRecord where
  method : HttpMethod
  url : String
  body : Option (List (String × jsonFieldValue))
  deriving Repr, DecidableEq

/-- An HTTP response as the lifecycle code sees it: the status code, and the
result of JSON-decoding the response body into `β` (`Except.error` carries
the decoder's error message). -/
structure HttpResponse (β : Type) where
  statusCode : Nat
  body : Except String β

/-- One diagnostic added via `AddError`: summary and detail. -/
structure Diagnostic where
  summary : String
  detail : String
  deriving Repr, DecidableEq

/-- Outcome of one resource lifecycle call: the requests issued in order,
the state written back (`none` when the call errored before `State.Set`),
and the diagnostics added. -/
structure ResourceOutcome where
  requests : List HttpRequestRecord
  newState : Option integrationModel
  diagnostics : List Diagnostic
  deriving Repr, DecidableEq

/-- The data source state model (`integrationDataSourceModel`). -/
structure integrationDataSourceModel where
  integrations : List integrationModel
  deriving Repr, DecidableEq

/-- Outcome of a data source read. -/
structure DataSourceOutcome where
  requests : List HttpRequestRecord
  newState : Option integrationDataSourceModel
  diagnostics : List Diagnostic
  deriving Repr, DecidableEq

namespace integrationResource

/-- `integrationResource.Create`: POST the create body to
`{baseURL}/integrations`, then GET
`{baseURL}/integrations/{unique_key}?include=webhook&include=credentials`,
decode the GET body as `nanogoIntegrationResponse2`, and overwrite only
`uniqueKey` and `updatedAt` of the plan before writing it to state.  The
POST response body is never decoded, so it is modelled with `Unit`. -/
def Create (baseURL : String) (plan : integrationModel)
    (postResp : Except String (HttpResponse Unit))
    (getResp : Except String (HttpResponse nanogoIntegrationResponse2)) :
    ResourceOutcome :=
  let postReq : HttpRequestRecord :=
    { method := HttpMethod.post
      url := baseURL ++ "/integrations"
      body := some (createRequestBody plan) }
  match postResp with
  | Except.error e =>
      { requests := [postReq], newState := none
        diagnostics := [{ summary := "Unable to Create Integration", detail := e }] }
  | Except.ok _ =>
    let getReq : HttpRequestRecord :=
      { method := HttpMethod.get
        url := baseURL ++ "/integrations/" ++ valueString plan.uniqueKey ++
               "?include=webhook&include=credentials"
        body := none }
    match getResp with
    | Except.error gErr =>
        { requests := [postReq, getReq], newState := none
          diagnostics := [{ summary := "Unable to Get Integration", detail := gErr }] }
    | Except.ok r =>
      match r.body with
      | Except.error e =>
          { requests := [postReq, getReq], newState := none
            diagnostics := [{ summary := "Unable to Decode JSON", detail := e }] }
      | Except.ok integration =>
          { requests := [postReq, getReq]
            newState := some { plan with
              uniqueKey := some integration.data.uniqueKey
              updatedAt := some integration.data.updatedAt }
            diagnostics := [] }

/-- `integrationResource.Read`: GET `{baseURL}/integrations/{unique_key}`,
decode the body as `nangoIntegrationModel`, then write the incoming state
back unchanged — the whole field-reconciliation block (display name,
provider, timestamps, credentials) is commented out in the source, so the
decoded response is dropped. -/
def Read (baseURL : String) (state : integrationModel)
    (getResp : Except String (HttpResponse nangoIntegrationModel)) :
    ResourceOutcome :=
  let getReq : HttpRequestRecord :=
    { method := HttpMethod.get
      url := baseURL ++ "/integrations/" ++ valueString state.uniqueKey
      body := none }
  match getResp with
  | Except.error e =>
      { requests := [getReq], newState := none
        diagnostics := [{ summary := "Error Reading HashiCups Order"
                          detail := "Could not read HashiCups order ID " ++
                                    valueString state.uniqueKey ++ ": " ++ e }] }
  | Except.ok r =>
    match r.body with
    | Except.error e =>
        { requests := [getReq], newState := none
          diagnostics := [{ summary := "Unable to Decode JSON", detail := e }] }
    | Except.ok _integrations =>
        { requests := [getReq], newState := some state, diagnostics := [] }

/-- `integrationResource.Update`: PATCH the update body (provider omitted)
to `{baseURL}/integrations/{unique_key}`, decode the response as
`nangoIntegrationModel`, then overwrite `displayName` from the response when
non-empty (else keep the planned value) and `updatedAt` from the response
when non-empty (else stamp the controller's current time, passed here as
`now`). -/
def Update (baseURL : String) (plan : integrationModel) (now : String)
    (patchResp : Except String (HttpResponse nangoIntegrationModel)) :
    ResourceOutcome :=
  let patchReq : HttpRequestRecord :=
    { method := HttpMethod.patch
      url := baseURL ++ "/integrations/" ++ valueString plan.uniqueKey
      body := some (updateRequestBody plan) }
  match patchResp with
  | Except.error e =>
      { requests := [patchReq], newState := none
        diagnostics := [{ summary := "Unable to Update Integration", detail := e }] }
  | Except.ok r =>
    match r.body with
    | Except.error e =>
        { requests := [patchReq], newState := none
          diagnostics := [{ summary := "Unable to Decode JSON", detail := e }] }
    | Except.ok integration =>
        let plan1 :=
          if integration.displayName ≠ "" then
            { plan with displayName := some integration.displayName }
          else plan
        let plan2 :=
          if integration.updatedAt ≠ "" then
            { plan1 with updatedAt := some integration.updatedAt }
          else
            { plan1 with updatedAt := some now }
        { requests := [patchReq], newState := some plan2, diagnostics := [] }

/-- `integrationResource.Delete`: the function body in the source is empty —
no request is issued, no diagnostic added, no state touched. -/
def Delete (_state : integrationModel) : ResourceOutcome :=
  { requests := [], newState := none, diagnostics := [] }

end integrationResource

namespace integrationDataSource

/-- `integrationDataSource.Read`: GET `{baseURL}/integrations`, decode the
`{data: [...]}` envelope, and build the state list in server order, with
`credentials` set to nil on every element. -/
def Read (baseURL : String)
    (getResp : Except String (HttpResponse nangoIntegrationResponse)) :
    DataSourceOutcome :=
  let getReq : HttpRequestRecord :=
    { method := HttpMethod.get, url := baseURL ++ "/integrations", body := none }
  match getResp with
  | Except.error e =>
      { requests := [getReq], newState := none
        diagnostics := [{ summary := "Unable to Read Integrations", detail := e }] }
  | Except.ok r =>
    match r.body with
    | Except.error e =>
        { requests := [getReq], newState := none
          diagnostics := [{ summary := "Unable to Decode JSON", detail := e }] }
    | Except.ok integrations =>
        { requests := [getReq]
          newState := some
            { integrations := integrations.data.map (fun integration =>
                { uniqueKey := some integration.uniqueKey
                  displayName := some integration.displayName
                  nangoProvider := some integration.nangoProvider
                  updatedAt := some integration.updatedAt
                  credentials := none }) }
          diagnostics := [] }

end integrationDataSource

/-- HTTP headers as an ordered multimap, matching `net/http.Header`
restricted to what the transport touches. -/
def headerAdd (h : List (String × String)) (key value : String) :
    List (String × String) :=
  h ++ [(key, value)]

/-- All values stored under a header key, in order. -/
def headerValues (h : List (String × String)) (key : String) : List String :=
  (h.filter (fun p => p.fst == key)).map Prod.snd

/-- The authenticated transport (`myTransport`): holds the environment key. -/
structure myTransport where
  authKey : String
  deriving Repr, DecidableEq

namespace myTransport

/-- The header effect of `myTransport.RoundTrip` on the outgoing request:
`req.Header.Add("Authorization", fmt.Sprintf("Bearer %s", t.authKey))` —
note `Add` appends a value under the key, it does not replace existing
values.  Logging and body re-buffering have no effect on the headers. -/
def RoundTrip (t : myTransport) (requestHeaders : List (String × String)) :
    List (String × String) :=
  headerAdd requestHeaders "Authorization" ("Bearer " ++ t.authKey)

end myTransport

/-! ## Claims -/

/-- Claim C1: the claim says a successful Read overwrites `display_name`,
`provider_type`, `updated_at` and the credential sub-fields from the decoded
response.  The source's reconciliation block is commented out, so Read writes
the incoming state back unchanged even when the response carries different
values: here the response has display name `new name` and a 2024 timestamp,
yet the written state keeps `old name` and the 2020 timestamp. -/
theorem C1_read_does_not_reconcile :
    (integrationResource.Read "https://api.nango.dev"
      { uniqueKey := some "gh1", displayName := some "old name",
        nangoProvider := some "github", updatedAt := some "2020-01-01T00:00:00Z",
        credentials := some { clientId := some "x", clientSecret := some "y",
                              type := some "OAUTH2", scopes := some ["repo"] } }
      (Except.ok { statusCode := 200
                   body := Except.ok { uniqueKey := "gh1"
                                       displayName := "new name"
                                       nangoProvider := "github"
                                       updatedAt := "2024-05-01T00:00:00Z" } })).newState =
      some { uniqueKey := some "gh1", displayName := some "old name",
             nangoProvider := some "github", updatedAt := some "2020-01-01T00:00:00Z",
             credentials := some { clientId := some "x", clientSecret := some "y",
                                   type := some "OAUTH2", scopes := some ["repo"] } } ∧
    ("old name" : String) ≠ "new name" ∧
    ("2020-01-01T00:00:00Z" : String) ≠ "2024-05-01T00:00:00Z" :=
  ⟨rfl, by decide, by decide⟩

/-- Claim C2: Delete issues no HTTP request and adds no diagnostic,
returning immediately for every incoming state. -/
theorem C2_delete_is_noop (state : integrationModel) :
    (integrationResource.Delete state).requests = [] ∧
    (integrationResource.Delete state).diagnostics = [] :=
  ⟨rfl, rfl⟩

/-- Claim C2 witness: Delete at a concrete state. -/
theorem C2_delete_is_noop_witness :
    (integrationResource.Delete
      { uniqueKey := some "gh1", displayName := some "GitHub",
        nangoProvider := some "github", updatedAt := none,
        credentials := none }).requests = [] ∧
    (integrationResource.Delete
      { uniqueKey := some "gh1", displayName := some "GitHub",
        nangoProvider := some "github", updatedAt := none,
        credentials := none }).diagnostics = [] :=
  C2_delete_is_noop
    { uniqueKey := some "gh1", displayName := some "GitHub",
      nangoProvider := some "github", updatedAt := none, credentials := none }

/-- Claim C3 counterexample: the claim says the transport overwrites any
prior Authorization value, leaving exactly `Bearer <key>`.  The source uses
`Header.Add`, which appends: a request that already carries the value `X`
ends up with both values, not with `Bearer k` alone. -/
theorem C3_counterexample :
    headerValues (myTransport.RoundTrip { authKey := "k" }
      [("Authorization", "X")]) "Authorization" ≠ ["Bearer k"] := by
  decide

/-- Claim C3 (amended): the transport appends `Bearer <environment_key>` to
the request's Authorization values; when the request carried no prior
Authorization value, the header afterwards equals exactly
`Bearer <environment_key>`. -/
theorem C3_transport_appends_bearer (t : myTransport)
    (h : List (String × String)) :
    headerValues (myTransport.RoundTrip t h) "Authorization" =
      headerValues h "Authorization" ++ ["Bearer " ++ t.authKey] ∧
    (headerValues h "Authorization" = [] →
      headerValues (myTransport.RoundTrip t h) "Authorization" =
        ["Bearer " ++ t.authKey]) := by
  have key : headerValues (myTransport.RoundTrip t h) "Authorization" =
      headerValues h "Authorization" ++ ["Bearer " ++ t.authKey] := by
    simp [myTransport.RoundTrip, headerAdd, headerValues, List.filter_append]
  exact ⟨key, fun h0 => by rw [key, h0]; rfl⟩

/-- Claim C3 witness: a request with no prior Authorization value ends up
with exactly `Bearer k`. -/
theorem C3_transport_appends_bearer_witness :
    headerValues (myTransport.RoundTrip { authKey := "k" } [])
      "Authorization" = ["Bearer k"] :=
  (C3_transport_appends_bearer { authKey := "k" } []).2 rfl

/-- Claim C4: a successful Create issues exactly two requests in order — a
POST to `{baseURL}/integrations` and a GET to
`{baseURL}/integrations/{unique_key}?include=webhook&include=credentials` —
and the written state takes `uniqueKey` and `updatedAt` from the GET
response body (the POST response body is `Unit` here: it is never parsed). -/
theorem C4_create_post_then_get (baseURL k : String) (plan : integrationModel)
    (s1 s2 : Nat) (w : nanogoIntegrationResponse2)
    (hk : plan.uniqueKey = some k) :
    ((integrationResource.Create baseURL plan
        (Except.ok { statusCode := s1, body := Except.ok () })
        (Except.ok { statusCode := s2, body := Except.ok w })).requests.map
          (fun r => (r.method, r.url)) =
      [(HttpMethod.post, baseURL ++ "/integrations"),
       (HttpMethod.get, baseURL ++ "/integrations/" ++ k ++
          "?include=webhook&include=credentials")]) ∧
    (integrationResource.Create baseURL plan
        (Except.ok { statusCode := s1, body := Except.ok () })
        (Except.ok { statusCode := s2, body := Except.ok w })).newState =
      some { plan with uniqueKey := some w.data.uniqueKey
                       updatedAt := some w.data.updatedAt } := by
  constructor
  · simp [integrationResource.Create, hk, valueString]
  · rfl

/-- Claim C4 witness: the §8 example plan (`unique_key="gh1"`,
`display_name="GitHub"`, `provider_type="github"`, credentials
`client_id="x"`, `client_secret="y"`, `type="OAUTH2"`, `scopes=["repo"]`)
with a server GET response echoing `gh1` and a non-empty timestamp: the two
requests go out in order and the state ends with `unique_key="gh1"` and the
non-empty `updated_at`. -/
theorem C4_create_post_then_get_witness :
    ((integrationResource.Create "https://api.nango.dev"
        { uniqueKey := some "gh1"
          displayName := some "GitHub"
          nangoProvider := some "github"
          updatedAt := none
          credentials := some { clientId := some "x"
                                clientSecret := some "y"
                                type := some "OAUTH2"
                                scopes := some ["repo"] } }
        (Except.ok { statusCode := 200, body := Except.ok () })
        (Except.ok { statusCode := 200
                     body := Except.ok { data :=
                       { uniqueKey := "gh1"
                         displayName := "GitHub"
                         nangoProvider := "github"
                         updatedAt := "2024-05-01T00:00:00Z" } } })).requests.map
          (fun r => (r.method, r.url)) =
      [(HttpMethod.post, "https://api.nango.dev/integrations"),
       (HttpMethod.get,
        "https://api.nango.dev/integrations/gh1?include=webhook&include=credentials")]) ∧
    (integrationResource.Create "https://api.nango.dev"
        { uniqueKey := some "gh1"
          displayName := some "GitHub"
          nangoProvider := some "github"
          updatedAt := none
          credentials := some { clientId := some "x"
                                clientSecret := some "y"
                                type := some "OAUTH2"
                                scopes := some ["repo"] } }
        (Except.ok { statusCode := 200, body := Except.ok () })
        (Except.ok { statusCode := 200
                     body := Except.ok { data :=
                       { uniqueKey := "gh1"
                         displayName := "GitHub"
                         nangoProvider := "github"
                         updatedAt := "2024-05-01T00:00:00Z" } } })).newState =
      some { uniqueKey := some "gh1"
             displayName := some "GitHub"
             nangoProvider := some "github"
             updatedAt := some "2024-05-01T00:00:00Z"
             credentials := some { clientId := some "x"
                                   clientSecret := some "y"
                                   type := some "OAUTH2"
                                   scopes := some ["repo"] } } ∧
    ("2024-05-01T00:00:00Z" : String) ≠ "" := by
  have h := C4_create_post_then_get "https://api.nango.dev" "gh1"
    { uniqueKey := some "gh1"
      displayName := some "GitHub"
      nangoProvider := some "github"
      updatedAt := none
      credentials := some { clientId := some "x"
                            clientSecret := some "y"
                            type := some "OAUTH2"
                            scopes := some ["repo"] } }
    200 200
    { data := { uniqueKey := "gh1"
                displayName := "GitHub"
                nangoProvider := "github"
                updatedAt := "2024-05-01T00:00:00Z" } }
    rfl
  exact ⟨h.1, h.2, by decide⟩

/-- Claim C5: no lifecycle or data-source operation inspects the HTTP status
code.  For every response whose transport call succeeds and whose body
decodes, each operation's outcome is identical under any two status codes,
and its diagnostics are empty — success is reported whether or not the
status is 2xx. -/
theorem C5_status_code_never_inspected (baseURL now : String)
    (plan state : integrationModel) (s1 s2 t1 t2 : Nat)
    (w2 : nanogoIntegrationResponse2) (w : nangoIntegrationModel)
    (env : nangoIntegrationResponse) :
    (integrationResource.Create baseURL plan
        (Except.ok { statusCode := s1, body := Except.ok () })
        (Except.ok { statusCode := s2, body := Except.ok w2 }) =
      integrationResource.Create baseURL plan
        (Except.ok { statusCode := t1, body := Except.ok () })
        (Except.ok { statusCode := t2, body := Except.ok w2 }) ∧
      (integrationResource.Create baseURL plan
        (Except.ok { statusCode := s1, body := Except.ok () })
        (Except.ok { statusCode := s2, body := Except.ok w2 })).diagnostics = []) ∧
    (integrationResource.Read baseURL state
        (Except.ok { statusCode := s1, body := Except.ok w }) =
      integrationResource.Read baseURL state
        (Except.ok { statusCode := t1, body := Except.ok w }) ∧
      (integrationResource.Read baseURL state
        (Except.ok { statusCode := s1, body := Except.ok w })).diagnostics = []) ∧
    (integrationResource.Update baseURL plan now
        (Except.ok { statusCode := s1, body := Except.ok w }) =
      integrationResource.Update baseURL plan now
        (Except.ok { statusCode := t1, body := Except.ok w }) ∧
      (integrationResource.Update baseURL plan now
        (Except.ok { statusCode := s1, body := Except.ok w })).diagnostics = []) ∧
    (integrationDataSource.Read baseURL
        (Except.ok { statusCode := s1, body := Except.ok env }) =
      integrationDataSource.Read baseURL
        (Except.ok { statusCode := t1, body := Except.ok env }) ∧
      (integrationDataSource.Read baseURL
        (Except.ok { statusCode := s1, body := Except.ok env })).diagnostics = []) :=
  ⟨⟨rfl, rfl⟩, ⟨rfl, rfl⟩, ⟨rfl, rfl⟩, ⟨rfl, rfl⟩⟩

/-- Claim C6: the PATCH issued by Update carries the update body, whose
request struct is exactly the create request struct with the provider field
removed: the marshalled JSON has no `provider` key and otherwise carries
`unique_key` (when the plan has one), `display_name` and the full
credentials block, identical to the create payload. -/
theorem C6_update_body_omits_provider (baseURL now : String)
    (plan : integrationModel)
    (patchResp : Except String (HttpResponse nangoIntegrationModel)) :
    ((integrationResource.Update baseURL plan now patchResp).requests =
      [{ method := HttpMethod.patch
         url := baseURL ++ "/integrations/" ++ valueString plan.uniqueKey
         body := some (updateRequestBody plan) }]) ∧
    "provider" ∉ jsonKeys (updateRequestBody plan) ∧
    updateRequestModel plan = { createRequestModel plan with nangoProvider := none } ∧
    jsonKeys (updateRequestBody plan) =
      (match plan.uniqueKey with
       | none => []
       | some _ => ["unique_key"]) ++ ["display_name", "credentials"] := by
  refine ⟨?_, ?_, ?_, ?_⟩
  · rcases patchResp with e | r
    · rfl
    · rcases r with ⟨s, b⟩
      rcases b with e | w
      · rfl
      · rfl
  · rcases h : plan.uniqueKey with _ | k <;>
      simp [updateRequestBody, marshalIntegrationRequest, updateRequestModel,
            jsonKeys, h]
  · rfl
  · rcases h : plan.uniqueKey with _ | k <;>
      simp [updateRequestBody, marshalIntegrationRequest, updateRequestModel,
            jsonKeys, h]

/-- Claim C6 witness: the update PATCH body for the §8 example plan. -/
theorem C6_update_body_omits_provider_witness :
    ((integrationResource.Update "https://api.nango.dev"
        { uniqueKey := some "gh1"
          displayName := some "GitHub"
          nangoProvider := some "github"
          updatedAt := none
          credentials := some { clientId := some "x"
                                clientSecret := some "y"
                                type := some "OAUTH2"
                                scopes := some ["repo"] } } "2024-05-01T00:00:00Z"
        (Except.error "transport failure")).requests =
      [{ method := HttpMethod.patch
         url := "https://api.nango.dev/integrations/gh1"
         body := some (updateRequestBody
           { uniqueKey := some "gh1"
             displayName := some "GitHub"
             nangoProvider := some "github"
             updatedAt := none
             credentials := some { clientId := some "x"
                                   clientSecret := some "y"
                                   type := some "OAUTH2"
                                   scopes := some ["repo"] } }) }]) ∧
    "provider" ∉ jsonKeys (updateRequestBody
      { uniqueKey := some "gh1"
        displayName := some "GitHub"
        nangoProvider := some "github"
        updatedAt := none
        credentials := some { clientId := some "x"
                              clientSecret := some "y"
                              type := some "OAUTH2"
                              scopes := some ["repo"] } }) := by
  have h := C6_update_body_omits_provider "https://api.nango.dev"
    "2024-05-01T00:00:00Z"
    { uniqueKey := some "gh1"
      displayName := some "GitHub"
      nangoProvider := some "github"
      updatedAt := none
      credentials := some { clientId := some "x"
                            clientSecret := some "y"
                            type := some "OAUTH2"
                            scopes := some ["repo"] } }
    (Except.error "transport failure")
  exact ⟨by simpa using h.1, h.2.1⟩

/-- Claim C7: on a successful Update the stored `displayName` is the
response's display name when non-empty, else the planned value; the stored
`updatedAt` is the response's timestamp when non-empty, else the
controller's current-time stamp `now`. -/
theorem C7_update_state_fallbacks (baseURL now : String)
    (plan : integrationModel) (s : Nat) (w : nangoIntegrationModel) :
    ∃ st, (integrationResource.Update baseURL plan now
        (Except.ok { statusCode := s, body := Except.ok w })).newState = some st ∧
      st.displayName =
        (if w.displayName = "" then plan.displayName else some w.displayName) ∧
      st.updatedAt = some (if w.updatedAt = "" then now else w.updatedAt) := by
  by_cases h1 : w.displayName = "" <;> by_cases h2 : w.updatedAt = "" <;>
    refine ⟨_, rfl, ?_, ?_⟩ <;>
      simp [integrationResource.Update, h1, h2]

/-- Claim C7 witness: a response carrying a new display name and a fresh
timestamp overwrites both. -/
theorem C7_update_state_fallbacks_witness :
    ∃ st, (integrationResource.Update "https://api.nango.dev"
        { uniqueKey := some "gh1"
          displayName := some "GitHub"
          nangoProvider := some "github"
          updatedAt := some "2020-01-01T00:00:00Z"
          credentials := some { clientId := some "x"
                                clientSecret := some "y"
                                type := some "OAUTH2"
                                scopes := some ["repo"] } } "2024-06-01T00:00:00Z"
        (Except.ok { statusCode := 200
                     body := Except.ok { uniqueKey := "gh1"
                                         displayName := "GitHub v2"
                                         nangoProvider := "github"
                                         updatedAt := "2024-05-01T00:00:00Z" } })).newState =
        some st ∧
      st.displayName = some "GitHub v2" ∧
      st.updatedAt = some "2024-05-01T00:00:00Z" := by
  obtain ⟨st, h1, h2, h3⟩ := C7_update_state_fallbacks "https://api.nango.dev"
    "2024-06-01T00:00:00Z"
    { uniqueKey := some "gh1"
      displayName := some "GitHub"
      nangoProvider := some "github"
      updatedAt := some "2020-01-01T00:00:00Z"
      credentials := some { clientId := some "x"
                            clientSecret := some "y"
                            type := some "OAUTH2"
                            scopes := some ["repo"] } }
    200
    { uniqueKey := "gh1", displayName := "GitHub v2", nangoProvider := "github",
      updatedAt := "2024-05-01T00:00:00Z" }
  refine ⟨st, h1, ?_, ?_⟩
  · rw [if_neg (by decide : ¬("GitHub v2" : String) = "")] at h2
    exact h2
  · rw [if_neg (by decide : ¬("2024-05-01T00:00:00Z" : String) = "")] at h3
    exact h3

/-- Claim C8: the scopes flattening used by Create and Update joins with a
single comma and no spaces, over any two scopes; the empty list and the
absent (null) scopes attribute both flatten to the empty string; the
spec-modelled inverse splits back, with the empty string mapping to the
empty list. -/
theorem C8_scopes_flatten_unflatten :
    (∀ a b : String, flattenScopes [a, b] = a ++ "," ++ b) ∧
    flattenScopes ["a", "b"] = "a,b" ∧
    flattenScopes [] = "" ∧
    unflattenScopes "a,b" = ["a", "b"] ∧
    unflattenScopes "" = [] ∧
    flattenScopes (elementsAs none) = "" :=
  ⟨fun _ _ => rfl, by decide, rfl, by decide, by decide, rfl⟩

/-- Claim C8 witness: the general two-scope join at concrete scopes. -/
theorem C8_scopes_flatten_unflatten_witness :
    flattenScopes ["repo", "user"] = "repo,user" :=
  (C8_scopes_flatten_unflatten.1 "repo" "user").trans (by decide)

/-- Claim C9: a data-source read whose GET succeeds and decodes to a
`{data: [...]}` envelope writes exactly the server's elements, in server
order, each entry copying `unique_key`, `display_name`, `nango_provider`
and `updated_at` and carrying no credentials. -/
theorem C9_datasource_preserves_order (baseURL : String) (s : Nat)
    (env : nangoIntegrationResponse) :
    ∃ st, (integrationDataSource.Read baseURL
        (Except.ok { statusCode := s, body := Except.ok env })).newState = some st ∧
      st.integrations = env.data.map (fun integration =>
        { uniqueKey := some integration.uniqueKey
          displayName := some integration.displayName
          nangoProvider := some integration.nangoProvider
          updatedAt := some integration.updatedAt
          credentials := none }) ∧
      st.integrations.length = env.data.length ∧
      ∀ m ∈ st.integrations, m.credentials = none := by
  refine ⟨_, rfl, rfl, by simp, ?_⟩
  intro m hm
  simp only [List.mem_map] at hm
  obtain ⟨i, _hi, rfl⟩ := hm
  rfl

/-- Claim C9 witness: a two-element server response yields a two-element
ordered state with credentials absent on each. -/
theorem C9_datasource_preserves_order_witness :
    ∃ st, (integrationDataSource.Read "https://api.nango.dev"
        (Except.ok { statusCode := 200
                     body := Except.ok { data :=
                       [{ uniqueKey := "gh1"
                          displayName := "GitHub"
                          nangoProvider := "github"
                          updatedAt := "2024-05-01T00:00:00Z" },
                        { uniqueKey := "sl1"
                          displayName := "Slack"
                          nangoProvider := "slack"
                          updatedAt := "2024-05-02T00:00:00Z" }] } })).newState =
        some st ∧
      st.integrations.length = 2 ∧
      ∀ m ∈ st.integrations, m.credentials = none := by
  obtain ⟨st, h1, _h2, h3, h4⟩ := C9_datasource_preserves_order
    "https://api.nango.dev" 200
    { data :=
        [{ uniqueKey := "gh1", displayName := "GitHub", nangoProvider := "github",
           updatedAt := "2024-05-01T00:00:00Z" },
         { uniqueKey := "sl1", displayName := "Slack", nangoProvider := "slack",
           updatedAt := "2024-05-02T00:00:00Z" }] }
  exact ⟨st, h1, h3.trans (by decide), h4⟩

/-- Claim C10: a successful Create takes only `uniqueKey` and `updatedAt`
from the server's GET response; the stored `displayName`, `nangoProvider`
and the whole credentials block equal the planned values unchanged. -/
theorem C10_create_frame (baseURL : String) (plan : integrationModel)
    (s1 s2 : Nat) (w : nanogoIntegrationResponse2) :
    ∃ st, (integrationResource.Create baseURL plan
        (Except.ok { statusCode := s1, body := Except.ok () })
        (Except.ok { statusCode := s2, body := Except.ok w })).newState = some st ∧
      st.displayName = plan.displayName ∧
      st.nangoProvider = plan.nangoProvider ∧
      st.credentials = plan.credentials ∧
      st.uniqueKey = some w.data.uniqueKey ∧
      st.updatedAt = some w.data.updatedAt :=
  ⟨_, rfl, rfl, rfl, rfl, rfl, rfl⟩

/-- Claim C10 witness: a GET response that disagrees with the plan on every
field changes only `uniqueKey` and `updatedAt` in the stored state. -/
theorem C10_create_frame_witness :
    ∃ st, (integrationResource.Create "https://api.nango.dev"
        { uniqueKey := some "gh1"
          displayName := some "GitHub"
          nangoProvider := some "github"
          updatedAt := none
          credentials := some { clientId := some "x"
                                clientSecret := some "y"
                                type := some "OAUTH2"
                                scopes := some ["repo"] } }
        (Except.ok { statusCode := 200, body := Except.ok () })
        (Except.ok { statusCode := 200
                     body := Except.ok { data :=
                       { uniqueKey := "other"
                         displayName := "Other"
                         nangoProvider := "slack"
                         updatedAt := "2024-05-01T00:00:00Z" } } })).newState =
        some st ∧
      st.displayName = some "GitHub" ∧
      st.nangoProvider = some "github" ∧
      st.credentials = some { clientId := some "x"
                              clientSecret := some "y"
                              type := some "OAUTH2"
                              scopes := some ["repo"] } ∧
      st.uniqueKey = some "other" ∧
      st.updatedAt = some "2024-05-01T00:00:00Z" :=
  C10_create_frame "https://api.nango.dev"
    { uniqueKey := some "gh1"
      displayName := some "GitHub"
      nangoProvider := some "github"
      updatedAt := none
      credentials := some { clientId := some "x"
                            clientSecret := some "y"
                            type := some "OAUTH2"
                            scopes := some ["repo"] } }
    200 200
    { data := { uniqueKey := "other", displayName := "Other",
                nangoProvider := "slack", updatedAt := "2024-05-01T00:00:00Z" } }
